import Mathlib

/-!
Shallow embedding of the simulation core of fjong (src/main.rs): a two-paddle
ball game advanced on a fixed 1/60 s timestep.  The f32 arithmetic of the
source is modelled over ℚ.  The only transcendental values in the core are the
cosine and sine of the paddle bounce angle; functions that need them take a
parameter trig : ℚ → ℚ × ℚ sending the normalized paddle intersection n to
the pair (cos a, sin a) with a = n * (π/2 − π/4).  Every theorem below either
quantifies over trig or evaluates it only at n = 0, where the true values are
exactly (1, 0).
-/

namespace Fjong

/-! Constants, verbatim from the top of src/main.rs. -/

def TIME_STEP : ℚ := 1 / 60

def PADDLE_WIDTH : ℚ := 20

def PADDLE_HEIGHT : ℚ := 120

def GAP_BETWEEN_PADDLE_AND_GOAL : ℚ := 60

def PADDLE_PADDING : ℚ := 60

def PADDLE_SPEED : ℚ := 500

def BALL_SIZE : ℚ := 30

def BALL_SPEED : ℚ := 400

def BALL_SPEED_X : ℚ := 400

def BALL_SPEED_Y : ℚ := 50

def WALL_THICKNESS : ℚ := 10

def LEFT_WALL : ℚ := -450

def RIGHT_WALL : ℚ := 450

def BOTTOM_WALL : ℚ := -300

def TOP_WALL : ℚ := 300

/-- The x/y part of BALL_STARTING_POSITION (the z component only orders
sprites and plays no role in the simulation). -/
structure Vec2 where
  x : ℚ
  y : ℚ
deriving DecidableEq, Repr

def BALL_STARTING_POSITION : Vec2 := ⟨0, 0⟩

/-- The ball sprite scale BALL_SIZE, truncated to 2D: the box the collision
code uses for the ball. -/
def ballScale : Vec2 := ⟨BALL_SIZE, BALL_SIZE⟩

/-- Scoreboard resource: p1_score, p2_score and the rally counter fjongs
(the spec calls it rally_intensity), all usize in the source. -/
structure Scoreboard where
  p1_score : ℕ
  p2_score : ℕ
  fjongs : ℕ
deriving DecidableEq, Repr

/-- Whole simulation state.  p1 carries only a Transform (its paddle is moved
by direct position writes); p2 and the ball carry Transform plus Velocity.
cooldownElapsed is the elapsed time of the Thingies.score_cooldown timer,
a non-repeating bevy Timer of duration 0.7 s. -/
structure World where
  ballPos : Vec2
  ballVel : Vec2
  p1Pos : Vec2
  p2Pos : Vec2
  p2Vel : Vec2
  board : Scoreboard
  cooldownElapsed : ℚ
deriving DecidableEq, Repr

def COOLDOWN_DURATION : ℚ := 7 / 10

/-- Rust f32::clamp(lo, hi) for lo ≤ hi. -/
def qclamp (x lo hi : ℚ) : ℚ := max lo (min x hi)

/-- Side classification returned by bevy's collide_aabb. -/
inductive Collision where
  | Left
  | Right
  | Top
  | Bottom
  | Inside
deriving DecidableEq, Repr

/-- Modelled from the source of the dependency bevy 0.7,
bevy::sprite::collide_aabb::collide (the repository itself only calls it):
axis-aligned box overlap test, classifying the contact side of box a relative
to box b by the axis of smaller penetration depth, Inside when neither axis
gives a one-sided crossing. -/
def collide (aPos aSize bPos bSize : Vec2) : Option Collision :=
  let aMinX := aPos.x - aSize.x / 2
  let aMaxX := aPos.x + aSize.x / 2
  let aMinY := aPos.y - aSize.y / 2
  let aMaxY := aPos.y + aSize.y / 2
  let bMinX := bPos.x - bSize.x / 2
  let bMaxX := bPos.x + bSize.x / 2
  let bMinY := bPos.y - bSize.y / 2
  let bMaxY := bPos.y + bSize.y / 2
  if aMinX < bMaxX ∧ aMaxX > bMinX ∧ aMinY < bMaxY ∧ aMaxY > bMinY then
    let xColl : Option (Collision × ℚ) :=
      if aMinX < bMinX ∧ aMaxX > bMinX ∧ aMaxX < bMaxX then
        some (Collision.Left, bMinX - aMaxX)
      else if aMinX > bMinX ∧ aMinX < bMaxX ∧ aMaxX > bMaxX then
        some (Collision.Right, aMinX - bMaxX)
      else none
    let yColl : Option (Collision × ℚ) :=
      if aMinY < bMinY ∧ aMaxY > bMinY ∧ aMaxY < bMaxY then
        some (Collision.Bottom, bMinY - aMaxY)
      else if aMinY > bMinY ∧ aMinY < bMaxY ∧ aMaxY > bMaxY then
        some (Collision.Top, aMinY - bMaxY)
      else none
    match xColl, yColl with
    | some (xc, xd), some (yc, yd) => if |yd| < |xd| then some yc else some xc
    | some (xc, _), none => some xc
    | none, some (yc, _) => some yc
    | none, none => some Collision.Inside
  else
    none

/-- The reflection step of check_for_collisions (src/main.rs lines 534-550):
flip a velocity component only when the ball moves into the contact side. -/
def reflectedVel (coll : Collision) (v : Vec2) : Vec2 :=
  let reflect_x : Bool :=
    match coll with
    | Collision.Left => decide (v.x > 0)
    | Collision.Right => decide (v.x < 0)
    | _ => false
  let reflect_y : Bool :=
    match coll with
    | Collision.Top => decide (v.y < 0)
    | Collision.Bottom => decide (v.y > 0)
    | _ => false
  ⟨if reflect_x then -v.x else v.x, if reflect_y then -v.y else v.y⟩

/-- The identity of a collider entity, given by its marker components. -/
inductive ColliderKind where
  | P1PaddleC
  | P2PaddleC
  | WallC
  | P1GoalC
  | P2GoalC
deriving DecidableEq, Repr

structure ColliderEnt where
  kind : ColliderKind
  pos : Vec2
  scale : Vec2
deriving DecidableEq, Repr

/-- The body of the check_for_collisions loop after a collision was detected
(src/main.rs lines 531-598): reflect, then dispatch on the collider's marker
components (goal: fjongs soft reset, score, ball reset, timer reset;
paddle: fjongs increment and angled bounce with rally speed bonus;
plain wall: reflection only). -/
def applyResponse (trig : ℚ → ℚ × ℚ) (w : World) (c : ColliderEnt)
    (coll : Collision) : World :=
  let w1 := { w with ballVel := reflectedVel coll w.ballVel }
  match c.kind with
  | ColliderKind.WallC => w1
  | ColliderKind.P1GoalC =>
      { w1 with
        board := { w1.board with
          fjongs := if 5 ≤ w1.board.fjongs then 2 else w1.board.fjongs,
          p2_score := w1.board.p2_score + 1 },
        ballPos := BALL_STARTING_POSITION,
        ballVel := ⟨BALL_SPEED_X, BALL_SPEED_Y⟩,
        cooldownElapsed := 0 }
  | ColliderKind.P2GoalC =>
      { w1 with
        board := { w1.board with
          fjongs := if 5 ≤ w1.board.fjongs then 2 else w1.board.fjongs,
          p1_score := w1.board.p1_score + 1 },
        ballPos := BALL_STARTING_POSITION,
        ballVel := ⟨BALL_SPEED_X, BALL_SPEED_Y⟩,
        cooldownElapsed := 0 }
  | ColliderKind.P1PaddleC =>
      let fj := w1.board.fjongs + 1
      let normalized := (c.pos.y - w1.ballPos.y) / (PADDLE_HEIGHT / 2)
      { w1 with
        board := { w1.board with fjongs := fj },
        ballVel := ⟨BALL_SPEED * (trig normalized).1 + (fj : ℚ) * 4,
                    BALL_SPEED * (-(trig normalized).2) + (fj : ℚ) * 4⟩ }
  | ColliderKind.P2PaddleC =>
      let fj := w1.board.fjongs + 1
      let normalized := (c.pos.y - w1.ballPos.y) / (PADDLE_HEIGHT / 2)
      { w1 with
        board := { w1.board with fjongs := fj },
        ballVel := ⟨(BALL_SPEED * (trig normalized).1 + (fj : ℚ) * 4) * (-1),
                    (BALL_SPEED * (trig normalized).2 + (fj : ℚ) * 4) * (-1)⟩ }

/-- One iteration of the check_for_collisions loop for one collider:
no overlap means no effect. -/
def processCollider (trig : ℚ → ℚ × ℚ) (w : World) (c : ColliderEnt) : World :=
  (collide w.ballPos ballScale c.pos c.scale).elim w (applyResponse trig w c)

/-- The colliders spawned in setup, read back from the current world: the two
paddles (live transforms), the two walls and the two goals (static transforms).
The loop never mutates a paddle transform, so snapshotting the list before the
fold agrees with the source's live ECS query. -/
def collidersOf (w : World) : List ColliderEnt :=
  [⟨ColliderKind.P1PaddleC, w.p1Pos, ⟨PADDLE_WIDTH, PADDLE_HEIGHT⟩⟩,
   ⟨ColliderKind.P2PaddleC, w.p2Pos, ⟨PADDLE_WIDTH, PADDLE_HEIGHT⟩⟩,
   ⟨ColliderKind.WallC, ⟨0, BOTTOM_WALL⟩,
     ⟨RIGHT_WALL - LEFT_WALL + WALL_THICKNESS, WALL_THICKNESS⟩⟩,
   ⟨ColliderKind.WallC, ⟨0, TOP_WALL⟩,
     ⟨RIGHT_WALL - LEFT_WALL + WALL_THICKNESS, WALL_THICKNESS⟩⟩,
   ⟨ColliderKind.P1GoalC, ⟨LEFT_WALL, 0⟩,
     ⟨WALL_THICKNESS, TOP_WALL - BOTTOM_WALL + WALL_THICKNESS⟩⟩,
   ⟨ColliderKind.P2GoalC, ⟨RIGHT_WALL, 0⟩,
     ⟨WALL_THICKNESS, TOP_WALL - BOTTOM_WALL + WALL_THICKNESS⟩⟩]

def check_for_collisions (trig : ℚ → ℚ × ℚ) (w : World) : World :=
  (collidersOf w).foldl (processCollider trig) w

/-- The P2 AI system ai2 (src/main.rs lines 427-462), returning the new y
velocity of the P2 paddle (its x velocity is never written).  The division at
time_til_collision = 0 yields a signed infinity in f32 for a nonzero
numerator, which the 800-clamp chain maps to plus or minus 800; that IEEE
outcome is spelled out as the explicit first branch below. -/
def ai2 (ballVel ballPos p2Pos : Vec2) : ℚ :=
  if 0 < ballVel.x ∧ (LEFT_WALL - RIGHT_WALL) / 2 < ballPos.x + BALL_SIZE / 2 then
    if ballPos.y + BALL_SIZE / 2 ≠ p2Pos.y + PADDLE_HEIGHT / 2 then
      let time_til_collision :=
        ((RIGHT_WALL - LEFT_WALL) / 2 - PADDLE_PADDING - PADDLE_WIDTH
          - ballPos.x) / ballVel.x
      let distance_wanted := p2Pos.y - (ballPos.y + BALL_SIZE / 2)
      let velocity_wanted := -distance_wanted / time_til_collision
      if time_til_collision = 0 then
        if 0 < -distance_wanted then 800 else -800
      else if 800 < velocity_wanted then 800
      else if velocity_wanted < -800 then -800
      else velocity_wanted
    else 0
  else 0

/-- State of the two keyboard keys the P1 mover reads. -/
structure KeyboardInput where
  sPressed : Bool
  wPressed : Bool
deriving DecidableEq, Repr

/-- The direction accumulator of move_p1_paddle: starts at 0, S subtracts 1,
W adds 1. -/
def kbDirection (kb : KeyboardInput) : ℚ :=
  (if kb.sPressed then (0 : ℚ) - 1 else 0) + (if kb.wPressed then 1 else 0)

def paddleTopBound : ℚ := TOP_WALL - PADDLE_HEIGHT + PADDLE_PADDING

def paddleBottomBound : ℚ := BOTTOM_WALL + PADDLE_HEIGHT - PADDLE_PADDING

/-- move_p1_paddle (src/main.rs lines 371-405), returning the new y of the P1
paddle.  gamepad is none when no MyGamepad resource exists; when a gamepad is
connected it carries the optional left-stick-y axis value. -/
def move_p1_paddle (kb : KeyboardInput) (gamepad : Option (Option ℚ))
    (p1Y : ℚ) : ℚ :=
  match gamepad with
  | some axisValue =>
    match axisValue with
    | some y => qclamp (y * 250) paddleBottomBound paddleTopBound
    | none => p1Y
  | none =>
    qclamp (p1Y + kbDirection kb * PADDLE_SPEED * TIME_STEP)
      paddleBottomBound paddleTopBound

/-- apply_velocity (src/main.rs lines 464-475): tick the score cooldown by the
frame delta; only when it is finished, advance every entity that carries both
a Transform and a Velocity (exactly the ball and the P2 paddle) by
velocity * TIME_STEP.  The timer is non-repeating, so finished means the total
elapsed time has reached the 0.7 s duration. -/
def apply_velocity (w : World) (delta : ℚ) : World :=
  let elapsed := w.cooldownElapsed + delta
  if COOLDOWN_DURATION ≤ elapsed then
    { w with
      cooldownElapsed := elapsed,
      ballPos := ⟨w.ballPos.x + w.ballVel.x * TIME_STEP,
                  w.ballPos.y + w.ballVel.y * TIME_STEP⟩,
      p2Pos := ⟨w.p2Pos.x + w.p2Vel.x * TIME_STEP,
                w.p2Pos.y + w.p2Vel.y * TIME_STEP⟩ }
  else
    { w with cooldownElapsed := elapsed }

/-- Per-tick external input: the two P1 keys, the optional gamepad with its
optional axis value, and the real-time delta fed to Timer::tick. -/
structure TickInput where
  kb : KeyboardInput
  gamepad : Option (Option ℚ)
  delta : ℚ
deriving Repr

/-- One fixed tick.  The app schedule only orders the three mover systems
before check_for_collisions; they touch disjoint data except that
apply_velocity reads the P2 velocity ai2 writes, and the pipeline order below
(AI, input, integration, collisions) is the order the spec documents. -/
def tick (trig : ℚ → ℚ × ℚ) (inp : TickInput) (w : World) : World :=
  let wA := { w with p2Vel := ⟨w.p2Vel.x, ai2 w.ballVel w.ballPos w.p2Pos⟩ }
  let wB := { wA with
    p1Pos := ⟨wA.p1Pos.x, move_p1_paddle inp.kb inp.gamepad wA.p1Pos.y⟩ }
  let wC := apply_velocity wB inp.delta
  check_for_collisions trig wC

def runTicks (trig : ℚ → ℚ × ℚ) (inps : ℕ → TickInput) : ℕ → World → World
  | 0, w => w
  | Nat.succ n, w => tick trig (inps n) (runTicks trig inps n w)

/-- The state built by setup.  The ball's initial velocity in the source is
INITIAL_BALL_DIRECTION.normalize() componentwise times (BALL_SPEED_X,
BALL_SPEED_Y), an irrational pair; it is left as the parameter v0 and the
theorems that touch it hold for every v0. -/
def initState (v0 : Vec2) : World :=
  { ballPos := BALL_STARTING_POSITION
    ballVel := v0
    p1Pos := ⟨LEFT_WALL + GAP_BETWEEN_PADDLE_AND_GOAL, 0⟩
    p2Pos := ⟨RIGHT_WALL - GAP_BETWEEN_PADDLE_AND_GOAL, 0⟩
    p2Vel := ⟨0, 0⟩
    board := ⟨0, 0, 0⟩
    cooldownElapsed := 0 }

/-- Stand-in trig table used only in closed evaluations that hit the paddle
center: it agrees with the true (cos, sin) at normalized intersection 0,
the only point where those evaluations sample it. -/
def trigZero : ℚ → ℚ × ℚ := fun _ => (1, 0)

/-! Concrete states and colliders used by the closed theorems. -/

/-- The right goal collider exactly as spawned in setup. -/
def rightGoalEnt : ColliderEnt :=
  ⟨ColliderKind.P2GoalC, ⟨RIGHT_WALL, 0⟩,
    ⟨WALL_THICKNESS, TOP_WALL - BOTTOM_WALL + WALL_THICKNESS⟩⟩

/-- The left goal collider exactly as spawned in setup. -/
def leftGoalEnt : ColliderEnt :=
  ⟨ColliderKind.P1GoalC, ⟨LEFT_WALL, 0⟩,
    ⟨WALL_THICKNESS, TOP_WALL - BOTTOM_WALL + WALL_THICKNESS⟩⟩

/-- The bottom wall collider exactly as spawned in setup. -/
def bottomWallEnt : ColliderEnt :=
  ⟨ColliderKind.WallC, ⟨0, BOTTOM_WALL⟩,
    ⟨RIGHT_WALL - LEFT_WALL + WALL_THICKNESS, WALL_THICKNESS⟩⟩

/-- The P1 paddle collider at its initial transform. -/
def p1PaddleEnt : ColliderEnt :=
  ⟨ColliderKind.P1PaddleC, ⟨LEFT_WALL + GAP_BETWEEN_PADDLE_AND_GOAL, 0⟩,
    ⟨PADDLE_WIDTH, PADDLE_HEIGHT⟩⟩

/-- A state whose ball overlaps the right goal (ball box [430,460]x[-15,15]
against goal box [445,455]x[-305,305]), with a given rally counter. -/
def wGoal (k : ℕ) : World :=
  { ballPos := ⟨445, 0⟩, ballVel := ⟨400, 50⟩, p1Pos := ⟨-390, 0⟩,
    p2Pos := ⟨390, 0⟩, p2Vel := ⟨0, 0⟩, board := ⟨0, 0, k⟩,
    cooldownElapsed := 1 }

/-- A state whose ball overlaps the P1 paddle dead center (ball box
[-385,-355]x[-15,15] against paddle box [-400,-380]x[-60,60]), with a given
rally counter; the centered hit makes the bounce angle exactly 0. -/
def wPad (k : ℕ) : World :=
  { ballPos := ⟨-370, 0⟩, ballVel := ⟨-400, 50⟩, p1Pos := ⟨-390, 0⟩,
    p2Pos := ⟨390, 0⟩, p2Vel := ⟨0, 0⟩, board := ⟨0, 0, k⟩,
    cooldownElapsed := 1 }

/-- A state whose ball overlaps the bottom wall (ball box y [-305,-275]
against wall box y [-305,-295]). -/
def wWall : World :=
  { ballPos := ⟨0, -290⟩, ballVel := ⟨400, -50⟩, p1Pos := ⟨-390, 0⟩,
    p2Pos := ⟨390, 0⟩, p2Vel := ⟨0, 0⟩, board := ⟨0, 0, 3⟩,
    cooldownElapsed := 1 }

/-- In-bounds state from which one tick pushes the AI paddle past the top
bound: the ball is high and close to the P2 contact plane, so ai2 commands
the full 800 u/s upward while the paddle already sits at y = 240. -/
def wEscape : World :=
  { ballPos := ⟨350, 270⟩, ballVel := ⟨400, 50⟩, p1Pos := ⟨-390, 0⟩,
    p2Pos := ⟨390, 240⟩, p2Vel := ⟨0, 0⟩, board := ⟨0, 0, 0⟩,
    cooldownElapsed := 7 / 10 }

/-- Tick input with no keys held, no gamepad, and a 1/60 s frame delta. -/
def inpIdle : TickInput := ⟨⟨false, false⟩, none, 1 / 60⟩

/-! Frame lemmas: the collision engine never writes paddle transforms or the
paddle velocity, and the integrator never writes the P1 transform. -/

theorem processCollider_frame (trig : ℚ → ℚ × ℚ) (w : World) (c : ColliderEnt) :
    (processCollider trig w c).p1Pos = w.p1Pos
  ∧ (processCollider trig w c).p2Pos = w.p2Pos
  ∧ (processCollider trig w c).p2Vel = w.p2Vel := by
  rcases c with ⟨k, p, s⟩
  cases hcol : collide w.ballPos ballScale p s with
  | none => simp [processCollider, hcol]
  | some coll => cases k <;> simp [processCollider, hcol, applyResponse]

theorem foldl_processCollider_frame (trig : ℚ → ℚ × ℚ) (cs : List ColliderEnt)
    (w : World) :
    (cs.foldl (processCollider trig) w).p1Pos = w.p1Pos
  ∧ (cs.foldl (processCollider trig) w).p2Pos = w.p2Pos
  ∧ (cs.foldl (processCollider trig) w).p2Vel = w.p2Vel := by
  induction cs generalizing w with
  | nil => exact ⟨rfl, rfl, rfl⟩
  | cons c cs ih =>
    obtain ⟨h1, h2, h3⟩ := processCollider_frame trig w c
    obtain ⟨g1, g2, g3⟩ := ih (processCollider trig w c)
    exact ⟨g1.trans h1, g2.trans h2, g3.trans h3⟩

theorem check_for_collisions_frame (trig : ℚ → ℚ × ℚ) (w : World) :
    (check_for_collisions trig w).p1Pos = w.p1Pos
  ∧ (check_for_collisions trig w).p2Pos = w.p2Pos
  ∧ (check_for_collisions trig w).p2Vel = w.p2Vel :=
  foldl_processCollider_frame trig (collidersOf w) w

theorem apply_velocity_p1Pos (w : World) (d : ℚ) :
    (apply_velocity w d).p1Pos = w.p1Pos := by
  simp only [apply_velocity]
  split <;> rfl

theorem apply_velocity_p2Vel (w : World) (d : ℚ) :
    (apply_velocity w d).p2Vel = w.p2Vel := by
  simp only [apply_velocity]
  split <;> rfl

theorem tick_p1Pos_y (trig : ℚ → ℚ × ℚ) (inp : TickInput) (w : World) :
    (tick trig inp w).p1Pos.y = move_p1_paddle inp.kb inp.gamepad w.p1Pos.y := by
  simp only [tick]
  rw [(check_for_collisions_frame trig _).1, apply_velocity_p1Pos]

theorem tick_p2Vel_y (trig : ℚ → ℚ × ℚ) (inp : TickInput) (w : World) :
    (tick trig inp w).p2Vel.y = ai2 w.ballVel w.ballPos w.p2Pos := by
  simp only [tick]
  rw [(check_for_collisions_frame trig _).2.2, apply_velocity_p2Vel]

/-- A state whose ball overlaps the left goal (ball box [-460,-430]x[-15,15]
against goal box [-455,-445]x[-305,305]), with a given rally counter. -/
def wGoalLeft (k : ℕ) : World :=
  { ballPos := ⟨-445, 0⟩, ballVel := ⟨-400, 50⟩, p1Pos := ⟨-390, 0⟩,
    p2Pos := ⟨390, 0⟩, p2Vel := ⟨0, 0⟩, board := ⟨0, 0, k⟩,
    cooldownElapsed := 1 }

/-- C1 counterexample: with the ball overlapping the right goal, p2_score is
not incremented (it is p1_score that is), refuting the claim's side
assignment at a concrete state. -/
theorem C1_counterexample :
    (collide (wGoal 0).ballPos ballScale rightGoalEnt.pos
        rightGoalEnt.scale).isSome = true
  ∧ ¬ (processCollider trigZero (wGoal 0) rightGoalEnt).board.p2_score
        = (wGoal 0).board.p2_score + 1
  ∧ (processCollider trigZero (wGoal 0) rightGoalEnt).board.p1_score
        = (wGoal 0).board.p1_score + 1 := by
  norm_num [processCollider, collide, applyResponse, trigZero, reflectedVel,
    wGoal, rightGoalEnt, ballScale, BALL_SIZE, RIGHT_WALL, TOP_WALL,
    BOTTOM_WALL, WALL_THICKNESS]

/-- C1 (amended): a ball overlapping the right goal scores for Player 1
(p1_score increments by exactly 1, p2_score unchanged), and the left goal
scores for Player 2; in the same step the ball position is reset to the fixed
start (0,0), its velocity to the fixed pair (BALL_SPEED_X, BALL_SPEED_Y), and
the serve-lockout timer is restarted. -/
theorem C1_goal_scoring_amended (trig : ℚ → ℚ × ℚ) (w : World)
    (g : ColliderEnt)
    (hover : (collide w.ballPos ballScale g.pos g.scale).isSome = true) :
    (g.kind = ColliderKind.P2GoalC →
       (processCollider trig w g).board.p1_score = w.board.p1_score + 1
     ∧ (processCollider trig w g).board.p2_score = w.board.p2_score
     ∧ (processCollider trig w g).ballPos = BALL_STARTING_POSITION
     ∧ (processCollider trig w g).ballVel = ⟨BALL_SPEED_X, BALL_SPEED_Y⟩
     ∧ (processCollider trig w g).cooldownElapsed = 0)
  ∧ (g.kind = ColliderKind.P1GoalC →
       (processCollider trig w g).board.p2_score = w.board.p2_score + 1
     ∧ (processCollider trig w g).board.p1_score = w.board.p1_score
     ∧ (processCollider trig w g).ballPos = BALL_STARTING_POSITION
     ∧ (processCollider trig w g).ballVel = ⟨BALL_SPEED_X, BALL_SPEED_Y⟩
     ∧ (processCollider trig w g).cooldownElapsed = 0) := by
  rcases g with ⟨k, p, s⟩
  cases hcol : collide w.ballPos ballScale p s with
  | none => simp [hcol] at hover
  | some coll =>
    constructor <;> intro hk <;> subst hk <;>
      simp [processCollider, hcol, applyResponse]

/-- C1 witness: the amended goal-scoring theorem evaluated at two concrete
overlapping states, one per goal. -/
theorem C1_goal_scoring_witness :
    (processCollider trigZero (wGoal 0) rightGoalEnt).board.p1_score
        = (wGoal 0).board.p1_score + 1
  ∧ (processCollider trigZero (wGoalLeft 0) leftGoalEnt).board.p2_score
        = (wGoalLeft 0).board.p2_score + 1 := by
  constructor
  · exact ((C1_goal_scoring_amended trigZero (wGoal 0) rightGoalEnt
      (by norm_num [collide, wGoal, rightGoalEnt, ballScale, BALL_SIZE,
        RIGHT_WALL, TOP_WALL, BOTTOM_WALL, WALL_THICKNESS])).1 rfl).1
  · exact ((C1_goal_scoring_amended trigZero (wGoalLeft 0) leftGoalEnt
      (by norm_num [collide, wGoalLeft, leftGoalEnt, ballScale, BALL_SIZE,
        LEFT_WALL, TOP_WALL, BOTTOM_WALL, WALL_THICKNESS])).2 rfl).1

/-- C4: a classified contact reflects the ball's velocity only when it moves
into the surface (Left flips x iff vx > 0, Right iff vx < 0, Top flips y iff
vy < 0, Bottom iff vy > 0, Inside flips nothing), and a collider whose box no
longer overlaps the ball has no effect at all. -/
theorem C4_reflection_gate (trig : ℚ → ℚ × ℚ) (v : Vec2) (w : World)
    (c : ColliderEnt) :
    (0 < v.x → reflectedVel Collision.Left v = ⟨-v.x, v.y⟩)
  ∧ (¬ 0 < v.x → reflectedVel Collision.Left v = v)
  ∧ (v.x < 0 → reflectedVel Collision.Right v = ⟨-v.x, v.y⟩)
  ∧ (¬ v.x < 0 → reflectedVel Collision.Right v = v)
  ∧ (v.y < 0 → reflectedVel Collision.Top v = ⟨v.x, -v.y⟩)
  ∧ (¬ v.y < 0 → reflectedVel Collision.Top v = v)
  ∧ (0 < v.y → reflectedVel Collision.Bottom v = ⟨v.x, -v.y⟩)
  ∧ (¬ 0 < v.y → reflectedVel Collision.Bottom v = v)
  ∧ reflectedVel Collision.Inside v = v
  ∧ (collide w.ballPos ballScale c.pos c.scale = none →
       processCollider trig w c = w) := by
  refine ⟨fun h => ?_, fun h => ?_, fun h => ?_, fun h => ?_, fun h => ?_,
    fun h => ?_, fun h => ?_, fun h => ?_, ?_, fun h => ?_⟩ <;>
    simp [reflectedVel, processCollider, *]

/-- C4 witness: the reflection gate evaluated at a concrete velocity and a
concrete non-overlapping ball/collider pair. -/
theorem C4_reflection_gate_witness :
    reflectedVel Collision.Left ⟨3, 5⟩ = ⟨-3, 5⟩
  ∧ reflectedVel Collision.Top ⟨3, 5⟩ = ⟨3, 5⟩
  ∧ processCollider trigZero (initState ⟨1, 2⟩) rightGoalEnt
      = initState ⟨1, 2⟩ := by
  obtain ⟨h1, h2, h3, h4, h5, h6, h7, h8, h9, h10⟩ :=
    C4_reflection_gate trigZero ⟨3, 5⟩ (initState ⟨1, 2⟩) rightGoalEnt
  refine ⟨h1 (by norm_num), h6 (by norm_num), h10 ?_⟩
  norm_num [collide, initState, rightGoalEnt, ballScale,
    BALL_STARTING_POSITION, BALL_SIZE, RIGHT_WALL, TOP_WALL, BOTTOM_WALL,
    WALL_THICKNESS]

/-- C5: the rally counter fjongs changes only on paddle contact (plus exactly
1) or goal contact (reset to 2 precisely when it is at least 5, else left
unchanged); wall contacts and non-overlapping colliders never change it. -/
theorem C5_rally_intensity (trig : ℚ → ℚ × ℚ) (w : World) (c : ColliderEnt) :
    (c.kind = ColliderKind.WallC →
       (processCollider trig w c).board.fjongs = w.board.fjongs)
  ∧ (collide w.ballPos ballScale c.pos c.scale = none →
       (processCollider trig w c).board.fjongs = w.board.fjongs)
  ∧ ((c.kind = ColliderKind.P1PaddleC ∨ c.kind = ColliderKind.P2PaddleC) →
       (collide w.ballPos ballScale c.pos c.scale).isSome = true →
       (processCollider trig w c).board.fjongs = w.board.fjongs + 1)
  ∧ ((c.kind = ColliderKind.P1GoalC ∨ c.kind = ColliderKind.P2GoalC) →
       (collide w.ballPos ballScale c.pos c.scale).isSome = true →
       (processCollider trig w c).board.fjongs
         = if 5 ≤ w.board.fjongs then 2 else w.board.fjongs) := by
  rcases c with ⟨k, p, s⟩
  cases hcol : collide w.ballPos ballScale p s with
  | none =>
    refine ⟨fun _ => ?_, fun _ => ?_, fun _ h => ?_, fun _ h => ?_⟩
    · simp [processCollider, hcol]
    · simp [processCollider, hcol]
    · simp at h
    · simp at h
  | some coll =>
    refine ⟨fun hk => ?_, fun h => ?_, fun hk _ => ?_, fun hk _ => ?_⟩
    · subst hk; simp [processCollider, hcol, applyResponse]
    · simp [hcol] at h
    · rcases hk with hk | hk <;> subst hk <;>
        simp [processCollider, hcol, applyResponse]
    · rcases hk with hk | hk <;> subst hk <;>
        simp [processCollider, hcol, applyResponse]

/-- C5 witness: concrete wall, paddle and goal contacts, the goal case both
over and under the threshold (6 becomes 2, 3 stays 3). -/
theorem C5_rally_intensity_witness :
    (processCollider trigZero wWall bottomWallEnt).board.fjongs = 3
  ∧ (processCollider trigZero (wPad 200) p1PaddleEnt).board.fjongs = 201
  ∧ (processCollider trigZero (wGoal 6) rightGoalEnt).board.fjongs = 2
  ∧ (processCollider trigZero (wGoal 3) rightGoalEnt).board.fjongs = 3 := by
  have hpad : (collide (wPad 200).ballPos ballScale p1PaddleEnt.pos
      p1PaddleEnt.scale).isSome = true := by
    norm_num [collide, wPad, p1PaddleEnt, ballScale, BALL_SIZE, LEFT_WALL,
      GAP_BETWEEN_PADDLE_AND_GOAL, PADDLE_WIDTH, PADDLE_HEIGHT]
  have hgoal : ∀ k : ℕ, (collide (wGoal k).ballPos ballScale rightGoalEnt.pos
      rightGoalEnt.scale).isSome = true := fun k => by
    norm_num [collide, wGoal, rightGoalEnt, ballScale, BALL_SIZE, RIGHT_WALL,
      TOP_WALL, BOTTOM_WALL, WALL_THICKNESS]
  refine ⟨(C5_rally_intensity trigZero wWall bottomWallEnt).1 rfl,
    ?_, ?_, ?_⟩
  · exact (C5_rally_intensity trigZero (wPad 200) p1PaddleEnt).2.2.1
      (Or.inl rfl) hpad
  · exact (C5_rally_intensity trigZero (wGoal 6) rightGoalEnt).2.2.2
      (Or.inr rfl) (hgoal 6)
  · exact (C5_rally_intensity trigZero (wGoal 3) rightGoalEnt).2.2.2
      (Or.inr rfl) (hgoal 3)

/-- Centered P1-paddle hit: the bounce angle is 0 (cos 1, sin 0), so the
outgoing x velocity is exactly 404 + 4k for rally counter k — linear and
unbounded in the rally counter, with no clamp applied anywhere. -/
theorem wPad_bounce_x (trig : ℚ → ℚ × ℚ) (h0 : trig 0 = (1, 0)) (k : ℕ) :
    (processCollider trig (wPad k) p1PaddleEnt).ballVel.x = 404 + 4 * k := by
  have hcol : collide (wPad k).ballPos ballScale p1PaddleEnt.pos
      p1PaddleEnt.scale = some Collision.Right := by
    norm_num [collide, wPad, p1PaddleEnt, ballScale, BALL_SIZE, LEFT_WALL,
      GAP_BETWEEN_PADDLE_AND_GOAL, PADDLE_WIDTH, PADDLE_HEIGHT]
  have hn : (p1PaddleEnt.pos.y - (wPad k).ballPos.y) / (PADDLE_HEIGHT / 2)
      = 0 := by
    norm_num [p1PaddleEnt, wPad]
  simp only [processCollider, hcol, Option.elim, applyResponse, hn, h0,
    BALL_SPEED]
  norm_num [p1PaddleEnt, wPad]
  ring

/-- C2 counterexample: a centered paddle bounce at rally counter 200 leaves
the ball with velocity (1204, 804) — above every speed constant the program
configures (400, 500, 800) — and no rational bound majorizes the
post-contact x velocity over all rally counters: nothing is clamped. -/
theorem C2_counterexample :
    (collide (wPad 200).ballPos ballScale p1PaddleEnt.pos
        p1PaddleEnt.scale).isSome = true
  ∧ (processCollider trigZero (wPad 200) p1PaddleEnt).ballVel.x = 1204
  ∧ (processCollider trigZero (wPad 200) p1PaddleEnt).ballVel.y = 804
  ∧ (800 : ℚ) < (processCollider trigZero (wPad 200) p1PaddleEnt).ballVel.x
  ∧ ¬ ∃ B : ℚ, ∀ k : ℕ,
      |(processCollider trigZero (wPad k) p1PaddleEnt).ballVel.x| ≤ B := by
  refine ⟨?_, ?_, ?_, ?_, ?_⟩
  · norm_num [collide, wPad, p1PaddleEnt, ballScale, BALL_SIZE, LEFT_WALL,
      GAP_BETWEEN_PADDLE_AND_GOAL, PADDLE_WIDTH, PADDLE_HEIGHT]
  · norm_num [processCollider, collide, applyResponse, trigZero, reflectedVel,
      wPad, p1PaddleEnt, ballScale, BALL_SIZE, BALL_SPEED, PADDLE_HEIGHT,
      LEFT_WALL, GAP_BETWEEN_PADDLE_AND_GOAL, PADDLE_WIDTH]
  · norm_num [processCollider, collide, applyResponse, trigZero, reflectedVel,
      wPad, p1PaddleEnt, ballScale, BALL_SIZE, BALL_SPEED, PADDLE_HEIGHT,
      LEFT_WALL, GAP_BETWEEN_PADDLE_AND_GOAL, PADDLE_WIDTH]
  · norm_num [processCollider, collide, applyResponse, trigZero, reflectedVel,
      wPad, p1PaddleEnt, ballScale, BALL_SIZE, BALL_SPEED, PADDLE_HEIGHT,
      LEFT_WALL, GAP_BETWEEN_PADDLE_AND_GOAL, PADDLE_WIDTH]
  · rintro ⟨B, hB⟩
    have h := hB ⌈B⌉₊
    rw [wPad_bounce_x trigZero rfl] at h
    have h2 : (0 : ℚ) ≤ 404 + 4 * (⌈B⌉₊ : ℚ) := by positivity
    rw [abs_of_nonneg h2] at h
    have h3 : B ≤ (⌈B⌉₊ : ℚ) := Nat.le_ceil B
    have h4 : (0 : ℚ) ≤ (⌈B⌉₊ : ℚ) := by positivity
    linarith

/-- C2 (amended): no min/max clamp is applied after a contact-driven velocity
change; for every trig table agreeing with cosine/sine at angle 0 and every
bound M there is a rally counter whose centered paddle bounce sends the
x velocity above M. -/
theorem C2_no_speed_clamp_amended (trig : ℚ → ℚ × ℚ) (h0 : trig 0 = (1, 0))
    (M : ℚ) :
    ∃ k : ℕ,
      (collide (wPad k).ballPos ballScale p1PaddleEnt.pos
          p1PaddleEnt.scale).isSome = true
    ∧ M < (processCollider trig (wPad k) p1PaddleEnt).ballVel.x := by
  refine ⟨⌈M⌉₊, ?_, ?_⟩
  · norm_num [collide, wPad, p1PaddleEnt, ballScale, BALL_SIZE, LEFT_WALL,
      GAP_BETWEEN_PADDLE_AND_GOAL, PADDLE_WIDTH, PADDLE_HEIGHT]
  · rw [wPad_bounce_x trig h0]
    have h1 : M ≤ (⌈M⌉₊ : ℚ) := Nat.le_ceil M
    have h2 : (0 : ℚ) ≤ (⌈M⌉₊ : ℚ) := by positivity
    linarith

/-- C2 witness: the amended theorem evaluated at the exact trig table for a
centered hit and bound 1000. -/
theorem C2_no_speed_clamp_witness :
    ∃ k : ℕ,
      (collide (wPad k).ballPos ballScale p1PaddleEnt.pos
          p1PaddleEnt.scale).isSome = true
    ∧ 1000 < (processCollider trigZero (wPad k) p1PaddleEnt).ballVel.x :=
  C2_no_speed_clamp_amended trigZero rfl 1000

/-- C6 counterexample: with the ball on the left half of the arena (x = -200,
well short of the midline) but moving right, ai2 commands the nonzero
velocity 200/19, refuting the claim that the AI only engages once the ball
has crossed the arena midline (and also its offset-free velocity formula,
which would command -(0 - 0)/t = 0 here). -/
theorem C6_counterexample :
    ai2 ⟨400, 0⟩ ⟨-200, 0⟩ ⟨390, 0⟩ = 200 / 19
  ∧ (200 : ℚ) / 19 ≠ 0
  ∧ (⟨-200, 0⟩ : Vec2).x < 0 := by
  norm_num [ai2, LEFT_WALL, RIGHT_WALL, PADDLE_PADDING, PADDLE_WIDTH,
    BALL_SIZE, PADDLE_HEIGHT]

/-- C6 (amended): the positional gate compares against
(LEFT_WALL - RIGHT_WALL)/2 = -450, not the arena midline, and is therefore
satisfied by every in-arena ball position; the AI engages whenever the ball
moves right and the degenerate equality guard fails, and then (away from the
contact plane) commands -(paddle_y - (ball_y + half ball size)) divided by
the time to the contact plane, clamped to [-800, 800]. -/
theorem C6_ai_engagement_amended (bv bp pp : Vec2) :
    (LEFT_WALL - RIGHT_WALL) / 2 = -450
  ∧ (LEFT_WALL ≤ bp.x → (LEFT_WALL - RIGHT_WALL) / 2 < bp.x + BALL_SIZE / 2)
  ∧ (¬ (0 < bv.x ∧ (LEFT_WALL - RIGHT_WALL) / 2 < bp.x + BALL_SIZE / 2) →
       ai2 bv bp pp = 0)
  ∧ (bp.y + BALL_SIZE / 2 = pp.y + PADDLE_HEIGHT / 2 → ai2 bv bp pp = 0)
  ∧ ((0 < bv.x ∧ (LEFT_WALL - RIGHT_WALL) / 2 < bp.x + BALL_SIZE / 2
       ∧ bp.y + BALL_SIZE / 2 ≠ pp.y + PADDLE_HEIGHT / 2) →
     ((RIGHT_WALL - LEFT_WALL) / 2 - PADDLE_PADDING - PADDLE_WIDTH - bp.x)
         / bv.x ≠ 0 →
     ai2 bv bp pp
       = qclamp (-(pp.y - (bp.y + BALL_SIZE / 2)) /
           (((RIGHT_WALL - LEFT_WALL) / 2 - PADDLE_PADDING - PADDLE_WIDTH
             - bp.x) / bv.x)) (-800) 800) := by
  refine ⟨by norm_num [LEFT_WALL, RIGHT_WALL], ?_, ?_, ?_, ?_⟩
  · intro h
    have : (-450 : ℚ) ≤ bp.x := by
      simpa [LEFT_WALL] using h
    norm_num [LEFT_WALL, RIGHT_WALL, BALL_SIZE]
    linarith
  · intro h
    simp only [ai2]
    rw [if_neg h]
  · intro h
    simp only [ai2]
    by_cases h1 : 0 < bv.x ∧ (LEFT_WALL - RIGHT_WALL) / 2 < bp.x + BALL_SIZE / 2
    · rw [if_pos h1, if_neg (not_not_intro h)]
    · rw [if_neg h1]
  · rintro ⟨h1, h2, h3⟩ ht
    simp only [ai2]
    rw [if_pos ⟨h1, h2⟩, if_pos h3]
    rw [if_neg ht]
    split_ifs with ha hb
    · simp only [qclamp]
      rw [min_eq_right ha.le, max_eq_right (by norm_num : (-800 : ℚ) ≤ 800)]
    · simp only [qclamp]
      rw [min_eq_left (by linarith), max_eq_left (by linarith)]
    · simp only [qclamp]
      rw [min_eq_left (by linarith), max_eq_right (by linarith)]

/-- C6 witness: the amended AI characterization evaluated at a concrete
engaged state away from the contact plane. -/
theorem C6_ai_engagement_witness :
    ai2 ⟨400, 0⟩ ⟨100, 0⟩ ⟨390, 100⟩
      = qclamp (-(100 - (0 + BALL_SIZE / 2)) /
          (((RIGHT_WALL - LEFT_WALL) / 2 - PADDLE_PADDING - PADDLE_WIDTH
            - 100) / 400)) (-800) 800 :=
  (C6_ai_engagement_amended ⟨400, 0⟩ ⟨100, 0⟩ ⟨390, 100⟩).2.2.2.2
    ⟨by norm_num, by norm_num [LEFT_WALL, RIGHT_WALL, BALL_SIZE],
     by norm_num [BALL_SIZE, PADDLE_HEIGHT]⟩
    (by norm_num [RIGHT_WALL, LEFT_WALL, PADDLE_PADDING, PADDLE_WIDTH])

/-- C8: when the ball's x velocity is 0 the AI's engagement guard (which
demands a strictly positive x velocity) fails, so the branch containing the
time-to-contact quotient by that velocity is never evaluated and the
commanded velocity is 0. -/
theorem C8_ai_zero_velocity_guard (bv bp pp : Vec2) (h : bv.x = 0) :
    ai2 bv bp pp = 0
  ∧ ¬ (0 < bv.x ∧ (LEFT_WALL - RIGHT_WALL) / 2 < bp.x + BALL_SIZE / 2) := by
  have hng : ¬ (0 < bv.x ∧ (LEFT_WALL - RIGHT_WALL) / 2
      < bp.x + BALL_SIZE / 2) := by
    rintro ⟨h1, -⟩
    rw [h] at h1
    exact lt_irrefl 0 h1
  refine ⟨?_, hng⟩
  simp only [ai2]
  rw [if_neg hng]

/-- C8 witness: the zero-closing-velocity case evaluated concretely. -/
theorem C8_ai_zero_velocity_guard_witness :
    ai2 ⟨0, 0⟩ ⟨100, 100⟩ ⟨390, 0⟩ = 0
  ∧ ¬ (0 < (⟨0, 0⟩ : Vec2).x ∧ (LEFT_WALL - RIGHT_WALL) / 2
        < (⟨100, 100⟩ : Vec2).x + BALL_SIZE / 2) :=
  C8_ai_zero_velocity_guard ⟨0, 0⟩ ⟨100, 100⟩ ⟨390, 0⟩ rfl

/-- C9: with a gamepad connected and an axis value read, the P1 paddle's y is
set absolutely to axis * 250 clamped to the paddle bounds [-240, 240] and the
keyboard state is ignored that tick; with no gamepad the paddle moves by a
delta of direction * 500 * (1/60), direction being -1 or 1 for exactly one
held key and 0 when both or neither are held, and is then clamped. -/
theorem C9_p1_input_resolution (kb kb2 : KeyboardInput) (a y : ℚ) :
    PADDLE_SPEED = 500
  ∧ TIME_STEP = 1 / 60
  ∧ paddleBottomBound = BOTTOM_WALL + 60
  ∧ paddleTopBound = TOP_WALL - 60
  ∧ move_p1_paddle kb (some (some a)) y
      = qclamp (a * 250) paddleBottomBound paddleTopBound
  ∧ move_p1_paddle kb (some (some a)) y = move_p1_paddle kb2 (some (some a)) y
  ∧ move_p1_paddle kb none y
      = qclamp (y + kbDirection kb * PADDLE_SPEED * TIME_STEP)
          paddleBottomBound paddleTopBound
  ∧ (kb.sPressed = kb.wPressed → kbDirection kb = 0)
  ∧ (kb.sPressed = true → kb.wPressed = false → kbDirection kb = -1)
  ∧ (kb.wPressed = true → kb.sPressed = false → kbDirection kb = 1) := by
  refine ⟨rfl, rfl,
    by norm_num [paddleBottomBound, BOTTOM_WALL, PADDLE_HEIGHT,
      PADDLE_PADDING],
    by norm_num [paddleTopBound, TOP_WALL, PADDLE_HEIGHT, PADDLE_PADDING],
    rfl, rfl, rfl, ?_, ?_, ?_⟩
  · intro h
    cases hs : kb.sPressed <;> cases hw : kb.wPressed <;>
      simp_all [kbDirection]
  · intro hs hw
    simp [kbDirection, hs, hw]
  · intro hw hs
    simp [kbDirection, hs, hw]

/-- C9 witness: the input resolver evaluated at a concrete axis value and at
concrete key states (S only, and S together with W). -/
theorem C9_p1_input_resolution_witness :
    move_p1_paddle ⟨true, false⟩ (some (some (1 / 2))) 0
      = qclamp (1 / 2 * 250) paddleBottomBound paddleTopBound
  ∧ kbDirection ⟨true, false⟩ = -1
  ∧ kbDirection ⟨true, true⟩ = 0 := by
  obtain ⟨-, -, -, -, h5, -, -, -, h9, -⟩ :=
    C9_p1_input_resolution ⟨true, false⟩ ⟨false, false⟩ (1 / 2) 0
  obtain ⟨-, -, -, -, -, -, -, g8, -, -⟩ :=
    C9_p1_input_resolution ⟨true, true⟩ ⟨false, false⟩ (1 / 2) 0
  exact ⟨h5, h9 rfl rfl, g8 rfl⟩

/-- C7: the serve timer has duration 0.7 s; while it has not finished,
apply_velocity moves neither the ball nor the P2 paddle even though their
velocities are untouched and may be nonzero; once it has finished, positions
advance by velocity * TIME_STEP; a goal contact restarts the timer; and the
P1 input resolver and the AI keep running during the whole tick regardless of
the timer (their outputs never read it). -/
theorem C7_serve_lockout (trig : ℚ → ℚ × ℚ) (inp : TickInput) (w : World)
    (c : ColliderEnt) :
    COOLDOWN_DURATION = 7 / 10
  ∧ (w.cooldownElapsed + inp.delta < COOLDOWN_DURATION →
       (apply_velocity w inp.delta).ballPos = w.ballPos
     ∧ (apply_velocity w inp.delta).p2Pos = w.p2Pos
     ∧ (apply_velocity w inp.delta).ballVel = w.ballVel)
  ∧ (COOLDOWN_DURATION ≤ w.cooldownElapsed + inp.delta →
       (apply_velocity w inp.delta).ballPos
         = ⟨w.ballPos.x + w.ballVel.x * TIME_STEP,
            w.ballPos.y + w.ballVel.y * TIME_STEP⟩
     ∧ (apply_velocity w inp.delta).p2Pos
         = ⟨w.p2Pos.x + w.p2Vel.x * TIME_STEP,
            w.p2Pos.y + w.p2Vel.y * TIME_STEP⟩)
  ∧ ((c.kind = ColliderKind.P1GoalC ∨ c.kind = ColliderKind.P2GoalC) →
       (collide w.ballPos ballScale c.pos c.scale).isSome = true →
       (processCollider trig w c).cooldownElapsed = 0)
  ∧ (tick trig inp w).p1Pos.y = move_p1_paddle inp.kb inp.gamepad w.p1Pos.y
  ∧ (tick trig inp w).p2Vel.y = ai2 w.ballVel w.ballPos w.p2Pos := by
  refine ⟨rfl, ?_, ?_, ?_, tick_p1Pos_y trig inp w, tick_p2Vel_y trig inp w⟩
  · intro h
    have hn : ¬ COOLDOWN_DURATION ≤ w.cooldownElapsed + inp.delta :=
      not_le.mpr h
    simp only [apply_velocity]
    rw [if_neg hn]
    exact ⟨rfl, rfl, rfl⟩
  · intro h
    simp only [apply_velocity]
    rw [if_pos h]
    exact ⟨rfl, rfl⟩
  · intro hk hover
    rcases c with ⟨k, p, s⟩
    cases hcol : collide w.ballPos ballScale p s with
    | none => simp [hcol] at hover
    | some coll =>
      rcases hk with hk | hk <;> subst hk <;>
        simp [processCollider, hcol, applyResponse]

/-- C7 witness: the lockout evaluated at the fresh setup state (timer still
running, ball frozen despite nonzero velocity), at a finished-timer state
(integration resumes), and at a concrete goal contact (timer restarted). -/
theorem C7_serve_lockout_witness :
    (apply_velocity (initState ⟨-400, 50⟩) inpIdle.delta).ballPos
        = (initState ⟨-400, 50⟩).ballPos
  ∧ (apply_velocity wEscape inpIdle.delta).p2Pos
      = ⟨wEscape.p2Pos.x + wEscape.p2Vel.x * TIME_STEP,
         wEscape.p2Pos.y + wEscape.p2Vel.y * TIME_STEP⟩
  ∧ (processCollider trigZero (wGoal 0) rightGoalEnt).cooldownElapsed = 0 := by
  refine ⟨?_, ?_, ?_⟩
  · exact ((C7_serve_lockout trigZero inpIdle (initState ⟨-400, 50⟩)
      rightGoalEnt).2.1
      (by norm_num [initState, inpIdle, COOLDOWN_DURATION])).1
  · exact ((C7_serve_lockout trigZero inpIdle wEscape rightGoalEnt).2.2.1
      (by norm_num [wEscape, inpIdle, COOLDOWN_DURATION])).2
  · exact (C7_serve_lockout trigZero inpIdle (wGoal 0) rightGoalEnt).2.2.2.1
      (Or.inr rfl)
      (by norm_num [collide, wGoal, rightGoalEnt, ballScale, BALL_SIZE,
        RIGHT_WALL, TOP_WALL, BOTTOM_WALL, WALL_THICKNESS])

/-- C3 (code bug): the integrator applies no clamp to the velocity-driven AI
paddle.  From the in-bounds state wEscape (P2 paddle resting exactly at the
top bound 240, ball high and near the contact plane) one tick has ai2 command
the maximum 800 u/s upward and apply_velocity integrate the paddle to
y = 760/3 > 240, leaving the claimed bound; the TODO comment inside ai2 in
the source concedes the AI paddle can clip the walls. -/
theorem C3_paddle_escapes_bounds :
    paddleBottomBound ≤ wEscape.p2Pos.y
  ∧ wEscape.p2Pos.y ≤ paddleTopBound
  ∧ (tick trigZero inpIdle wEscape).p2Pos.y = 760 / 3
  ∧ paddleTopBound < (tick trigZero inpIdle wEscape).p2Pos.y := by
  have hy : (tick trigZero inpIdle wEscape).p2Pos.y = 760 / 3 := by
    norm_num [tick, ai2, move_p1_paddle, apply_velocity, check_for_collisions,
      collidersOf, processCollider, collide, applyResponse, trigZero,
      reflectedVel, kbDirection, qclamp, wEscape, inpIdle, ballScale,
      BALL_SIZE, BALL_SPEED, PADDLE_HEIGHT, PADDLE_WIDTH, PADDLE_SPEED,
      PADDLE_PADDING, LEFT_WALL, RIGHT_WALL, TOP_WALL, BOTTOM_WALL,
      WALL_THICKNESS, TIME_STEP, COOLDOWN_DURATION, paddleTopBound,
      paddleBottomBound, GAP_BETWEEN_PADDLE_AND_GOAL]
  refine ⟨by norm_num [paddleBottomBound, BOTTOM_WALL, PADDLE_HEIGHT,
      PADDLE_PADDING, wEscape],
    by norm_num [paddleTopBound, TOP_WALL, PADDLE_HEIGHT, PADDLE_PADDING,
      wEscape], hy, ?_⟩
  rw [hy]
  norm_num [paddleTopBound, TOP_WALL, PADDLE_HEIGHT, PADDLE_PADDING]

/-- Preservation step for C10: one tick never changes either paddle's x
coordinate, and keeps the P2 x velocity at 0 once it is 0. -/
theorem tick_x_invariant (trig : ℚ → ℚ × ℚ) (inp : TickInput) (w : World)
    (h : w.p2Vel.x = 0) :
    (tick trig inp w).p1Pos.x = w.p1Pos.x
  ∧ (tick trig inp w).p2Pos.x = w.p2Pos.x
  ∧ (tick trig inp w).p2Vel.x = w.p2Vel.x := by
  have key : ∀ (u : World) (d : ℚ), u.p2Vel.x = 0 →
      (apply_velocity u d).p2Pos.x = u.p2Pos.x := by
    intro u d hu
    simp only [apply_velocity]
    split
    · simp [hu]
    · rfl
  simp only [tick]
  refine ⟨?_, ?_, ?_⟩
  · rw [(check_for_collisions_frame trig _).1, apply_velocity_p1Pos]
  · rw [(check_for_collisions_frame trig _).2.1]
    exact key _ inp.delta h
  · rw [(check_for_collisions_frame trig _).2.2, apply_velocity_p2Vel]

/-- C10: from the setup state, after any number of ticks under any input
sequence, both paddles' x coordinates still equal their fixed initial values
(LEFT_WALL + 60 and RIGHT_WALL - 60) and the P2 paddle's x velocity is still
the 0 it was given at setup: no system ever moves a paddle horizontally. -/
theorem C10_paddle_x_constant (trig : ℚ → ℚ × ℚ) (v0 : Vec2)
    (inps : ℕ → TickInput) (n : ℕ) :
    (runTicks trig inps n (initState v0)).p1Pos.x
      = LEFT_WALL + GAP_BETWEEN_PADDLE_AND_GOAL
  ∧ (runTicks trig inps n (initState v0)).p2Pos.x
      = RIGHT_WALL - GAP_BETWEEN_PADDLE_AND_GOAL
  ∧ (runTicks trig inps n (initState v0)).p2Vel.x = 0 := by
  induction n with
  | zero => exact ⟨rfl, rfl, rfl⟩
  | succ n ih =>
    obtain ⟨ih1, ih2, ih3⟩ := ih
    obtain ⟨t1, t2, t3⟩ := tick_x_invariant trig (inps n)
      (runTicks trig inps n (initState v0)) ih3
    exact ⟨t1.trans ih1, t2.trans ih2, t3.trans ih3⟩

/-- C10 witness: the horizontal-immobility invariant evaluated after three
concrete idle ticks from the setup state. -/
theorem C10_paddle_x_constant_witness :
    (runTicks trigZero (fun _ => inpIdle) 3 (initState ⟨-400, 50⟩)).p1Pos.x
      = LEFT_WALL + GAP_BETWEEN_PADDLE_AND_GOAL
  ∧ (runTicks trigZero (fun _ => inpIdle) 3 (initState ⟨-400, 50⟩)).p2Pos.x
      = RIGHT_WALL - GAP_BETWEEN_PADDLE_AND_GOAL
  ∧ (runTicks trigZero (fun _ => inpIdle) 3 (initState ⟨-400, 50⟩)).p2Vel.x
      = 0 :=
  C10_paddle_x_constant trigZero ⟨-400, 50⟩ (fun _ => inpIdle) 3

end Fjong
